import Mathlib

/-!
Shallow embedding of the device-relay server (`server2.py`): the device
registry (`connected_devices`), per-device event store
(`device_data_queues`), selection pointer (`current_device`), command
queue, the ingestion handler `receive_data`, the selection handlers,
the command handlers and the history-query endpoints.

Python dicts are modelled as association lists with in-place update
(preserving dict insertion-order semantics); JSON object payload values
are opaque and modelled as strings; `dict.get` returning `None` (or a
missing key) is modelled with `Option`.  Timestamps are abstract `Nat`
instants, one per handler call.
-/

namespace Server2

/-- `d.get(k)` on a python dict modelled as an association list. -/
def lookupA {α : Type} (l : List (String × α)) (k : String) : Option α :=
  match l with
  | [] => none
  | (k', v) :: rest => if k' = k then some v else lookupA rest k

/-- `d[k] = v` on a python dict: replace in place if the key exists,
else append (dict insertion order). -/
def insertA {α : Type} (l : List (String × α)) (k : String) (v : α) :
    List (String × α) :=
  match l with
  | [] => [(k, v)]
  | (k', v') :: rest =>
      if k' = k then (k, v) :: rest else (k', v') :: insertA rest k v

/-- One stored event (`{'type': ..., 'payload': ..., 'timestamp': ...}`).
`type` is `data.get('type')`, absent modelled as `none`. -/
structure Entry where
  type : Option String
  payload : List (String × String)
  timestamp : Nat
deriving DecidableEq

/-- One registry record, as built in the `DEVICE_INFO` branch of
`receive_data`. -/
structure DeviceRecord where
  id : String
  ip : Option String
  model : Option String
  manufacturer : Option String
  android_version : Option String
  battery : Option String
  last_seen : Nat
  connected : Bool
deriving DecidableEq

/-- A record placed on `command_queue`. -/
structure QueuedCommand where
  device_id : String
  command : String
  timestamp : Nat
deriving DecidableEq

/-- The server's global mutable state. -/
structure ServerState where
  connected_devices : List (String × DeviceRecord)
  device_data_queues : List (String × List Entry)
  current_device : Option String
  command_queue : List QueuedCommand
deriving DecidableEq

def initialState : ServerState :=
  { connected_devices := []
    device_data_queues := []
    current_device := none
    command_queue := [] }

/-- The socketio emissions `receive_data` can produce.  Payload pieces
such as `payload.get('log', {})` are modelled as the `lookupA` result
(`none` standing for the `{}` default). -/
inductive Emit where
  | device_connected (r : DeviceRecord)
  | device_data (t : Option String) (payload : List (String × String)) (ts : Nat)
  | new_sms (log : Option String)
  | new_call (log : Option String)
  | new_notif (n : Option String)
  | save_image (img : Option String)
  | location_update (url : Option String)
deriving DecidableEq

/-- The body of a `POST /api/data` request:
`{type, payload, client_info}`. -/
structure DataMsg where
  type : Option String
  payload : List (String × String)
  client_info : List (String × String)
deriving DecidableEq

/-- `device_id = client_info.get('address', f"device_{len(connected_devices)}")`. -/
def deriveDeviceId (s : ServerState) (m : DataMsg) : String :=
  (lookupA m.client_info "address").getD
    ("device_" ++ toString s.connected_devices.length)

/-- The event-store update inside `receive_data`: truncate to the last
500 entries when the current length exceeds 1000 (`q[-500:]`), then
append the new entry. -/
def appendEvent (log : List Entry) (e : Entry) : List Entry :=
  let log' := if log.length > 1000 then log.drop (log.length - 500) else log
  log' ++ [e]

/-- The registry record written by the `DEVICE_INFO` branch of
`receive_data`: every field comes from the latest payload
(`payload.get(...)`, so a missing key stores `None`), `last_seen` is
the call time and `connected` is `True`. -/
def infoRecord (s : ServerState) (m : DataMsg) (now : Nat) : DeviceRecord :=
  { id := deriveDeviceId s m
    ip := lookupA m.client_info "address"
    model := lookupA m.payload "Model"
    manufacturer := lookupA m.payload "Manufacturer"
    android_version := lookupA m.payload "AndroidVersion"
    battery := lookupA m.payload "Battery"
    last_seen := now
    connected := true }

/-- `connected_devices` after `receive_data`: wholesale assignment of a
fresh record on `DEVICE_INFO`, untouched otherwise. -/
def newDevices (s : ServerState) (m : DataMsg) (now : Nat) :
    List (String × DeviceRecord) :=
  if m.type = some "DEVICE_INFO" then
    insertA s.connected_devices (deriveDeviceId s m) (infoRecord s m now)
  else s.connected_devices

/-- `device_data_queues` after `receive_data`: ensure the key exists,
apply the batched truncation, append the new entry. -/
def newQueues (s : ServerState) (m : DataMsg) (now : Nat) :
    List (String × List Entry) :=
  insertA s.device_data_queues (deriveDeviceId s m)
    (appendEvent ((lookupA s.device_data_queues (deriveDeviceId s m)).getD [])
      { type := m.type, payload := m.payload, timestamp := now })

/-- The kind-specific socketio emission chain of `receive_data`. -/
def kindEmits (m : DataMsg) : List Emit :=
  if m.type = some "SMS_LOG" then [Emit.new_sms (lookupA m.payload "log")]
  else if m.type = some "CALL_LOG" then [Emit.new_call (lookupA m.payload "log")]
  else if m.type = some "NOTIFICATION_DATA" then
    [Emit.new_notif (lookupA m.payload "notification")]
  else if m.type = some "IMAGE_DATA" then
    [Emit.save_image (lookupA m.payload "image")]
  else if m.type = some "LOCATION_SUCCESS" then
    [Emit.location_update (lookupA m.payload "url")]
  else []

/-- All socketio emissions of one `receive_data` call, in program
order: `device_connected` (only on `DEVICE_INFO`), then `device_data`
(only when the derived id equals the current selection), then the
kind-specific notification. -/
def receiveEmits (s : ServerState) (m : DataMsg) (now : Nat) : List Emit :=
  (if m.type = some "DEVICE_INFO" then
      [Emit.device_connected (infoRecord s m now)]
    else []) ++
  (if s.current_device = some (deriveDeviceId s m) then
      [Emit.device_data m.type m.payload now]
    else []) ++
  kindEmits m

/-- `receive_data` (`POST /api/data`), happy path: derive the device id,
upsert the registry on `DEVICE_INFO`, append to the per-device queue
with batched truncation, and produce the socketio emissions. -/
def receive_data (s : ServerState) (m : DataMsg) (now : Nat) :
    ServerState × List Emit :=
  ({ s with
      connected_devices := newDevices s m now
      device_data_queues := newQueues s m now },
   receiveEmits s m now)

/-- Response of `POST /api/select_device`. -/
inductive SelectResp where
  | success (r : DeviceRecord)
  | notFound
deriving DecidableEq

/-- `select_device` (`POST /api/select_device`): sets `current_device`
and returns the record when the id is a registry key, else a 404
"Device not found".  `data.get('device_id')` may be absent (`none`),
which is never a registry key. -/
def select_device (s : ServerState) (device_id : Option String) :
    ServerState × SelectResp :=
  match device_id with
  | some d =>
      match lookupA s.connected_devices d with
      | some r => ({ s with current_device := some d }, SelectResp.success r)
      | none => (s, SelectResp.notFound)
  | none => (s, SelectResp.notFound)

/-- `handle_select_device` (socketio `select_device`): sets
`current_device` and emits `device_selected` when the id is a registry
key; otherwise falls through with NO emission at all (`none`). -/
def handle_select_device (s : ServerState) (device_id : Option String) :
    ServerState × Option DeviceRecord :=
  match device_id with
  | some d =>
      match lookupA s.connected_devices d with
      | some r => ({ s with current_device := some d }, some r)
      | none => (s, none)
  | none => (s, none)

/-- `str(x)` on an optional value interpolated by a python f-string:
`None` renders as `"None"`. -/
def pyStr : Option String → String
  | none => "None"
  | some s => s

/-- `format_command`: the pure translation from a command name and a
params mapping to the wire string for server1.  Unknown names fall
through to the final `else` and are returned unchanged. -/
def format_command (cmd : String) (params : List (String × String)) : String :=
  if cmd = "run" then "run " ++ pyStr (lookupA params "package")
  else if cmd = "open" then "open " ++ pyStr (lookupA params "url")
  else if cmd = "toast" then
    "toast " ++ pyStr (lookupA params "action") ++ " " ++ pyStr (lookupA params "text")
  else if cmd = "shell" then "shell"
  else if cmd = "getsms" then "getsms"
  else if cmd = "getcalllogs" then "getcalllogs"
  else if cmd = "list_app" then "list_app"
  else if cmd = "get_location" then "get_location"
  else if cmd = "takefrontpic" then "takefrontpic"
  else if cmd = "takebackpic" then "takebackpic"
  else if cmd = "flashon" then "flashon"
  else if cmd = "flashoff" then "flashoff"
  else if cmd = "notifikasi" then "notifikasi"
  else if cmd = "gallery" then "gallery"
  else if cmd = "deviceinfo" then "deviceinfo"
  else if cmd = "screen_recorder" then "screen_recorder"
  else if cmd = "filemanager" then "filemanager"
  else if cmd = "shell_cmd" then (lookupA params "cmd").getD ""
  else if cmd = "shell_cd" then "cd " ++ pyStr (lookupA params "path")
  else if cmd = "shell_ls" then "ls"
  else if cmd = "shell_exit" then "exit_shell"
  else cmd

/-- The closed set of command names `format_command` recognizes. -/
def knownCommands : List String :=
  ["run", "open", "toast", "shell", "getsms", "getcalllogs", "list_app",
   "get_location", "takefrontpic", "takebackpic", "flashon", "flashoff",
   "notifikasi", "gallery", "deviceinfo", "screen_recorder", "filemanager",
   "shell_cmd", "shell_cd", "shell_ls", "shell_exit"]

/-- Response of `POST /api/command`. -/
inductive CmdResp where
  | queued (cmd : String)
  | noDeviceSelected
deriving DecidableEq

/-- `send_command` (`POST /api/command`): rejects with 400
"No device selected" when `current_device` is falsy (unset, or the
empty string); otherwise formats the command and enqueues it. -/
def send_command (s : ServerState) (command : String)
    (params : List (String × String)) (now : Nat) : ServerState × CmdResp :=
  match s.current_device with
  | none => (s, CmdResp.noDeviceSelected)
  | some dev =>
      if dev = "" then (s, CmdResp.noDeviceSelected)
      else
        let cmd_str := format_command command params
        ({ s with command_queue :=
             s.command_queue ++ [⟨dev, cmd_str, now⟩] },
         CmdResp.queued cmd_str)

/-- Emission of the socketio `web_command` handler. -/
inductive WebCmdResp where
  | command_sent (cmd : String) (ts : Nat)
  | command_error
deriving DecidableEq

/-- `handle_web_command` (socketio `web_command`): emits
`command_error` and enqueues nothing when `current_device` is falsy;
otherwise formats, enqueues, and emits `command_sent`. -/
def handle_web_command (s : ServerState) (cmd : String)
    (params : List (String × String)) (now : Nat) : ServerState × WebCmdResp :=
  match s.current_device with
  | none => (s, WebCmdResp.command_error)
  | some dev =>
      if dev = "" then (s, WebCmdResp.command_error)
      else
        let cmd_str := format_command cmd params
        ({ s with command_queue :=
             s.command_queue ++ [⟨dev, cmd_str, now⟩] },
         WebCmdResp.command_sent cmd_str now)

/-- The shared scan loop of the history endpoints: walk the (already
reversed) log, collect `payload.get(key)` of entries whose type matches
`kind`, and break once `limit` results are collected (append first,
then test the length, exactly as the python loop does). -/
def scanLogs (kind key : String) (limit : Nat) :
    List Entry → List (Option String) → List (Option String)
  | [], acc => acc
  | it :: rest, acc =>
      if it.type = some kind then
        if limit ≤ acc.length + 1 then acc ++ [lookupA it.payload key]
        else scanLogs kind key limit rest (acc ++ [lookupA it.payload key])
      else scanLogs kind key limit rest acc

/-- `get_sms_logs` (`GET /api/sms_logs`): empty when no (truthy) device
is selected or the selected device has no queue; otherwise the last 50
`SMS_LOG` payload logs, newest first. -/
def get_sms_logs (s : ServerState) : List (Option String) :=
  match s.current_device with
  | none => []
  | some d =>
      if d = "" then []
      else
        match lookupA s.device_data_queues d with
        | none => []
        | some q => scanLogs "SMS_LOG" "log" 50 q.reverse []

/-- `get_notifications` (`GET /api/notifications`): same scan for
`NOTIFICATION_DATA`, projecting `payload.get('notification', {})`. -/
def get_notifications (s : ServerState) : List (Option String) :=
  match s.current_device with
  | none => []
  | some d =>
      if d = "" then []
      else
        match lookupA s.device_data_queues d with
        | none => []
        | some q => scanLogs "NOTIFICATION_DATA" "notification" 50 q.reverse []

/-- Declarative form of the spec's `queryLast(deviceId, kind, limit)`
contract on one device log: newest first (scan the reversed log), keep
only entries of the requested kind, project the payload field, return
at most `limit`. -/
def queryLastSpec (q : List Entry) (kind key : String) (limit : Nat) :
    List (Option String) :=
  (((q.reverse.filter (fun e => e.type = some kind)).map
      (fun e => lookupA e.payload key)).take limit)

/-- States reachable from boot by any sequence of ingestion calls. -/
inductive Reachable : ServerState → Prop where
  | init : Reachable initialState
  | ingest {s : ServerState} (m : DataMsg) (now : Nat) :
      Reachable s → Reachable (receive_data s m now).1

/-- The entry stored for `ingestMsg` at time 0. -/
def entry0 : Entry := { type := some "EVT", payload := [], timestamp := 0 }

/-- A fixed generic ingestion message from address `"a"`. -/
def ingestMsg : DataMsg :=
  { type := some "EVT", payload := [], client_info := [("address", "a")] }

/-- The per-device log after `n` plain appends of `entry0` from empty. -/
def iterLog : Nat → List Entry
  | 0 => []
  | n + 1 => appendEvent (iterLog n) entry0

/-- The server state after `n` ingestions of `ingestMsg`. -/
def stepN : Nat → ServerState
  | 0 => initialState
  | n + 1 => (receive_data (stepN n) ingestMsg 0).1

/-! ### Concrete fixture states used by witnesses and counterexamples -/

/-- A registry record with all identity fields populated. -/
def recA : DeviceRecord :=
  { id := "a", ip := some "a", model := some "Pixel 7",
    manufacturer := some "G", android_version := some "14",
    battery := some "90", last_seen := 0, connected := true }

/-- A state whose registry knows device `"a"` as `recA`. -/
def s3 : ServerState :=
  { connected_devices := [("a", recA)]
    device_data_queues := []
    current_device := none
    command_queue := [] }

/-- A later `DEVICE_INFO` message from `"a"` supplying only `Battery`. -/
def m3 : DataMsg :=
  { type := some "DEVICE_INFO"
    payload := [("Battery", "81")]
    client_info := [("address", "a")] }

/-- A state with device `"a"` registered and selected. -/
def s5 : ServerState :=
  { connected_devices := [("a", recA)]
    device_data_queues := []
    current_device := some "a"
    command_queue := [] }

/-- An `SMS_LOG` message from address `"x"`. -/
def m6 : DataMsg :=
  { type := some "SMS_LOG"
    payload := [("log", "hi")]
    client_info := [("address", "x")] }

/-- A state with device `"x"` selected. -/
def s6 : ServerState :=
  { connected_devices := []
    device_data_queues := []
    current_device := some "x"
    command_queue := [] }

def e1 : Entry := { type := some "SMS_LOG", payload := [("log", "m1")], timestamp := 1 }

def e2 : Entry := { type := some "CALL_LOG", payload := [("log", "c1")], timestamp := 2 }

def e3 : Entry := { type := some "SMS_LOG", payload := [("log", "m2")], timestamp := 3 }

/-- A state with a small mixed log for the selected device `"x"`. -/
def s9 : ServerState :=
  { connected_devices := []
    device_data_queues := [("x", [e1, e2, e3])]
    current_device := some "x"
    command_queue := [] }

/-- An ingestion message whose `client_info` has no `address`. -/
def mA : DataMsg :=
  { type := some "SMS_LOG", payload := [("log", "p")], client_info := [] }

/-- A second address-less ingestion message, from a different agent. -/
def mB : DataMsg :=
  { type := some "CALL_LOG", payload := [("log", "q")], client_info := [] }

/-! ### Basic facts about the embedded operations -/

theorem lookupA_insertA_self {α : Type} (l : List (String × α)) (k : String) (v : α) :
    lookupA (insertA l k v) k = some v := by
  induction l with
  | nil => simp [insertA, lookupA]
  | cons hd tl ih =>
      obtain ⟨k', v'⟩ := hd
      by_cases h : k' = k
      · simp [insertA, lookupA, h]
      · simp [insertA, lookupA, h, ih]

theorem lookupA_insertA_ne {α : Type} (l : List (String × α)) (k k' : String) (v : α)
    (h : k' ≠ k) : lookupA (insertA l k v) k' = lookupA l k' := by
  induction l with
  | nil => simp [insertA, lookupA, Ne.symm h]
  | cons hd tl ih =>
      obtain ⟨k0, v0⟩ := hd
      by_cases h0 : k0 = k
      · subst h0
        simp [insertA, lookupA, Ne.symm h]
      · simp only [insertA, if_neg h0, lookupA]
        by_cases h1 : k0 = k'
        · simp [h1]
        · simp [h1, ih]

theorem receive_data_queues (s : ServerState) (m : DataMsg) (now : Nat) :
    (receive_data s m now).1.device_data_queues = newQueues s m now := rfl

theorem receive_data_devices (s : ServerState) (m : DataMsg) (now : Nat) :
    (receive_data s m now).1.connected_devices = newDevices s m now := rfl

theorem newDevices_of_ne (s : ServerState) (m : DataMsg) (now : Nat)
    (h : ¬ m.type = some "DEVICE_INFO") :
    newDevices s m now = s.connected_devices := by
  simp [newDevices, h]

theorem newDevices_of_info (s : ServerState) (m : DataMsg) (now : Nat)
    (h : m.type = some "DEVICE_INFO") :
    newDevices s m now =
      insertA s.connected_devices (deriveDeviceId s m) (infoRecord s m now) := by
  simp [newDevices, h]

theorem deriveDeviceId_of_no_address (s : ServerState) (m : DataMsg)
    (h : lookupA m.client_info "address" = none) :
    deriveDeviceId s m = "device_" ++ toString s.connected_devices.length := by
  simp [deriveDeviceId, h]

theorem appendEvent_of_le (log : List Entry) (e : Entry)
    (h : log.length ≤ 1000) : appendEvent log e = log ++ [e] := by
  unfold appendEvent
  rw [if_neg (by omega)]

theorem appendEvent_of_gt (log : List Entry) (e : Entry)
    (h : log.length > 1000) :
    appendEvent log e = log.drop (log.length - 500) ++ [e] := by
  unfold appendEvent
  rw [if_pos h]

theorem appendEvent_length_le (log : List Entry) (e : Entry)
    (h : log.length ≤ 1001) : (appendEvent log e).length ≤ 1001 := by
  by_cases h1 : log.length > 1000
  · rw [appendEvent_of_gt log e h1]
    simp
    omega
  · rw [appendEvent_of_le log e (by omega)]
    simp
    omega

theorem iterLog_length (n : Nat) (h : n ≤ 1001) : (iterLog n).length = n := by
  induction n with
  | zero => rfl
  | succ k ih =>
      have hk : (iterLog k).length = k := ih (by omega)
      rw [iterLog, appendEvent_of_le _ _ (by omega)]
      simp [hk]

theorem iterLog_succ_length (n : Nat) (h : (iterLog n).length = 1001) :
    (iterLog (n + 1)).length = 501 := by
  rw [iterLog, appendEvent_of_gt _ _ (by omega)]
  simp [h]

theorem stepN_reachable (n : Nat) : Reachable (stepN n) := by
  induction n with
  | zero => exact Reachable.init
  | succ k ih => exact Reachable.ingest ingestMsg 0 ih

theorem stepN_queues (n : Nat) :
    (stepN (n + 1)).device_data_queues = [("a", iterLog (n + 1))] := by
  induction n with
  | zero => rfl
  | succ k ih =>
      show (receive_data (stepN (k + 1)) ingestMsg 0).1.device_data_queues = _
      rw [receive_data_queues]
      have hid : deriveDeviceId (stepN (k + 1)) ingestMsg = "a" := rfl
      unfold newQueues
      rw [hid, ih]
      simp [insertA, lookupA, iterLog, entry0, ingestMsg]

theorem scanLogs_eq (kind key : String) (limit : Nat) (items : List Entry)
    (acc : List (Option String)) (h : acc.length < limit) :
    scanLogs kind key limit items acc =
      acc ++ ((items.filter (fun e => e.type = some kind)).map
        (fun e => lookupA e.payload key)).take (limit - acc.length) := by
  induction items generalizing acc with
  | nil => simp [scanLogs]
  | cons it rest ih =>
      by_cases ht : it.type = some kind
      · by_cases hstop : limit ≤ acc.length + 1
        · have hlim : limit - acc.length = 1 := by omega
          simp [scanLogs, ht, hstop, hlim]
        · have h1 : (acc ++ [lookupA it.payload key]).length < limit := by
            simp
            omega
          have hrec := ih (acc ++ [lookupA it.payload key]) h1
          have hlim : limit - acc.length = (limit - (acc.length + 1)) + 1 := by
            omega
          simp only [scanLogs, ht, if_pos rfl, if_neg hstop, hrec]
          simp [List.filter_cons, ht, hlim, List.take_succ_cons]
      · simp [scanLogs, ht, ih acc h]

theorem scanLogs_length_le (kind key : String) (limit : Nat)
    (items : List Entry) (h : 0 < limit) :
    (scanLogs kind key limit items []).length ≤ limit := by
  rw [scanLogs_eq kind key limit items [] (by simpa using h)]
  simp

/-! ### Claim C1: event-log truncation policy -/

/-- C1 counterexample.  The claim says the append that makes the log
exceed 1000 entries truncates it to the 500 most recent retained
entries.  In the code the truncation test (`> 1000`) runs BEFORE the
append, so after 1001 appends from empty the stored log holds 1001
entries — the crossing append truncated nothing; only the next append
(the 1002nd) truncates, and it leaves 501 entries (500 retained plus
the newly appended one), not 500. -/
theorem C1_counterexample :
    (iterLog 1000).length = 1000 ∧ (iterLog 1001).length = 1001 ∧
      (iterLog 1002).length = 501 := by
  refine ⟨iterLog_length 1000 (by omega), iterLog_length 1001 (by omega), ?_⟩
  exact iterLog_succ_length 1001 (iterLog_length 1001 (by omega))

/-- C1 (amended): an append made while the log holds at most 1000
entries never truncates; an append made while the log already exceeds
1000 entries first cuts the log to its 500 most recent entries and then
appends, leaving exactly 501 entries (the 500 retained entries are the
500 most recent entries present prior to that append). -/
theorem C1_truncation_policy :
    ∀ (log : List Entry) (e : Entry),
      (log.length ≤ 1000 → appendEvent log e = log ++ [e]) ∧
      (log.length > 1000 →
        appendEvent log e = log.drop (log.length - 500) ++ [e] ∧
        (log.drop (log.length - 500)).length = 500 ∧
        (appendEvent log e).length = 501) := by
  intro log e
  refine ⟨appendEvent_of_le log e, fun h => ⟨appendEvent_of_gt log e h, ?_, ?_⟩⟩
  · simp
    omega
  · rw [appendEvent_of_gt log e h]
    simp
    omega

/-- C1 witness: concrete instantiation of both branches of
`C1_truncation_policy`, at logs of length 1000 and 1001. -/
theorem C1_truncation_policy_witness :
    (appendEvent (List.replicate 1000 entry0) entry0 =
        List.replicate 1000 entry0 ++ [entry0]) ∧
      appendEvent (List.replicate 1001 entry0) entry0 =
        (List.replicate 1001 entry0).drop
            ((List.replicate 1001 entry0).length - 500) ++ [entry0] :=
  ⟨(C1_truncation_policy (List.replicate 1000 entry0) entry0).1
     (by have := List.length_replicate 1000 entry0; omega),
   ((C1_truncation_policy (List.replicate 1001 entry0) entry0).2
     (by have := List.length_replicate 1001 entry0; omega)).1⟩

/-! ### Claim C2: registry membership after ingestion -/

/-- C2 counterexample.  Ingesting an `SMS_LOG` from a fresh address
puts the id in the event store but NOT in the registry: registry
entries are created only by `DEVICE_INFO` events, contradicting the
claimed invariant that any id in the event store is a registry key. -/
theorem C2_counterexample :
    (lookupA (receive_data initialState m6 0).1.device_data_queues
        "x").isSome = true ∧
      lookupA (receive_data initialState m6 0).1.connected_devices "x" =
        none := by
  exact ⟨rfl, rfl⟩

/-- C2 (amended): after any ingestion call the derived device id is a
key of the event store, but it is a key of the registry iff the event
was a `DEVICE_INFO` event or the id was already registered — registry
entries are created only on `DEVICE_INFO`, so an event-store id need
not exist in the registry. -/
theorem C2_registry_membership (s : ServerState) (m : DataMsg) (now : Nat) :
    (lookupA (receive_data s m now).1.device_data_queues
        (deriveDeviceId s m)).isSome = true ∧
      ((lookupA (receive_data s m now).1.connected_devices
          (deriveDeviceId s m)).isSome = true ↔
        (m.type = some "DEVICE_INFO" ∨
          (lookupA s.connected_devices (deriveDeviceId s m)).isSome = true)) := by
  constructor
  · rw [receive_data_queues, newQueues, lookupA_insertA_self]
    rfl
  · rw [receive_data_devices]
    by_cases h : m.type = some "DEVICE_INFO"
    · rw [newDevices_of_info s m now h, lookupA_insertA_self]
      simp [h]
    · rw [newDevices_of_ne s m now h]
      simp [h]

/-! ### Claim C3: DEVICE_INFO overwrites the whole record -/

/-- C3 counterexample.  Device `"a"` is registered with model
`"Pixel 7"`; a later `DEVICE_INFO` upsert that supplies only `Battery`
leaves the stored model `None` — the previously known field value is
cleared, not kept, because the handler assigns a whole fresh record
instead of merging fields. -/
theorem C3_counterexample :
    (lookupA s3.connected_devices "a").map DeviceRecord.model =
        some (some "Pixel 7") ∧
      (lookupA (receive_data s3 m3 1).1.connected_devices "a").map
          DeviceRecord.model = some none ∧
      (lookupA (receive_data s3 m3 1).1.connected_devices "a").map
          DeviceRecord.battery = some (some "81") := by
  exact ⟨rfl, rfl, rfl⟩

/-- C3 (amended): a `DEVICE_INFO` ingestion overwrites the device's
registry record wholesale with `infoRecord`, whose every field is read
from the latest payload only (a field absent from the latest payload is
stored as `None`, clearing any previous value); `last_seen` is the call
time and `connected` is true.  The previous record does not appear in
the result at all. -/
theorem C3_upsert_overwrites (s : ServerState) (m : DataMsg) (now : Nat)
    (h : m.type = some "DEVICE_INFO") :
    lookupA (receive_data s m now).1.connected_devices (deriveDeviceId s m) =
      some (infoRecord s m now) := by
  rw [receive_data_devices, newDevices_of_info s m now h, lookupA_insertA_self]

/-- C3 witness: the amended theorem applied to the concrete state `s3`
and message `m3` (address `"a"`, payload supplying only `Battery`). -/
theorem C3_upsert_overwrites_witness :
    lookupA (receive_data s3 m3 1).1.connected_devices (deriveDeviceId s3 m3) =
      some (infoRecord s3 m3 1) :=
  C3_upsert_overwrites s3 m3 1 rfl

/-! ### Claim C4: stored log length bound between calls -/

/-- C4 counterexample.  A state reached by 1001 ingestion calls for one
device stores a log of 1001 entries between calls — more than the
claimed bound of 1000. -/
theorem C4_counterexample :
    Reachable (stepN 1001) ∧
      lookupA (stepN 1001).device_data_queues "a" = some (iterLog 1001) ∧
      (iterLog 1001).length = 1001 := by
  refine ⟨stepN_reachable 1001, ?_, iterLog_length 1001 (by omega)⟩
  rw [stepN_queues 1000]
  simp [lookupA]

/-- C4 (amended): in every state reachable by ingestion calls, each
stored device log holds at most 1001 entries — the high watermark of
1000 can be exceeded by exactly one entry, and that state persists
between calls until the next append for that device truncates. -/
theorem C4_queue_bound (s : ServerState) (hs : Reachable s)
    (d : String) (q : List Entry)
    (hq : lookupA s.device_data_queues d = some q) : q.length ≤ 1001 := by
  induction hs generalizing d q with
  | init => simp [initialState, lookupA] at hq
  | @ingest s0 m now _ ih =>
      rw [receive_data_queues, newQueues] at hq
      by_cases hd : d = deriveDeviceId s0 m
      · subst hd
        rw [lookupA_insertA_self] at hq
        obtain rfl : appendEvent
            ((lookupA s0.device_data_queues (deriveDeviceId s0 m)).getD [])
            { type := m.type, payload := m.payload, timestamp := now } = q :=
          Option.some.inj hq
        apply appendEvent_length_le
        cases hq0 : lookupA s0.device_data_queues (deriveDeviceId s0 m) with
        | none => simp [hq0]
        | some q0 => simpa [hq0] using ih _ _ hq0
      · rw [lookupA_insertA_ne _ _ _ _ hd] at hq
        exact ih d q hq

/-- C4 witness: the bound applied to the concrete reachable state after
one ingestion, whose log for `"a"` is `iterLog 1`. -/
theorem C4_queue_bound_witness :
    Reachable (stepN 1) ∧ (iterLog 1).length ≤ 1001 :=
  ⟨stepN_reachable 1,
   C4_queue_bound (stepN 1) (stepN_reachable 1) "a" (iterLog 1) rfl⟩

/-! ### Claim C5: selection of unknown and known ids -/

/-- C5 counterexample.  In the live-session path, selecting an id that
is absent from the registry leaves the state unchanged but emits
nothing at all (`none`): the operation does not fail with `NotFound`
(the socket handler has no error reply; it silently ignores the
request), contradicting the claim that either selection path fails
with `NotFound` for an unknown id. -/
theorem C5_counterexample :
    handle_select_device s5 (some "zzz") = (s5, none) ∧
      s5.current_device = some "a" := by
  exact ⟨rfl, rfl⟩

/-- C5 (amended): for an id absent from the registry, the HTTP
selection call leaves the state (hence the Selection) unchanged and
fails with `NotFound`, while the live-session selection message leaves
the state unchanged and emits no reply at all (silent ignore, not a
`NotFound` failure); for a present id, both paths set the Selection to
that id and return the selected device's snapshot. -/
theorem C5_selection (s : ServerState) :
    (∀ d, lookupA s.connected_devices d = none →
        select_device s (some d) = (s, SelectResp.notFound) ∧
        handle_select_device s (some d) = (s, none)) ∧
    (∀ d r, lookupA s.connected_devices d = some r →
        select_device s (some d) =
          ({ s with current_device := some d }, SelectResp.success r) ∧
        handle_select_device s (some d) =
          ({ s with current_device := some d }, some r)) := by
  constructor
  · intro d hd
    simp [select_device, handle_select_device, hd]
  · intro d r hd
    simp [select_device, handle_select_device, hd]

/-- C5 witness: both branches of `C5_selection` at the concrete state
`s5`, for the absent id `"zzz"` and the present id `"a"`. -/
theorem C5_selection_witness :
    (select_device s5 (some "zzz") = (s5, SelectResp.notFound) ∧
        handle_select_device s5 (some "zzz") = (s5, none)) ∧
      (select_device s5 (some "a") =
          ({ s5 with current_device := some "a" }, SelectResp.success recA) ∧
        handle_select_device s5 (some "a") =
          ({ s5 with current_device := some "a" }, some recA)) :=
  ⟨(C5_selection s5).1 "zzz" rfl, (C5_selection s5).2 "a" recA rfl⟩

/-! ### Claim C6: SMS_LOG emission gating -/

/-- C6: for every ingested `SMS_LOG` event, the kind-specific `new_sms`
notification is always among the emissions, regardless of the
Selection, while the generic `device_data` notification is emitted iff
the event's derived device id equals the current Selection. -/
theorem C6_sms_emissions (s : ServerState) (m : DataMsg) (now : Nat)
    (h : m.type = some "SMS_LOG") :
    Emit.new_sms (lookupA m.payload "log") ∈ (receive_data s m now).2 ∧
      (Emit.device_data m.type m.payload now ∈ (receive_data s m now).2 ↔
        s.current_device = some (deriveDeviceId s m)) := by
  constructor
  · show Emit.new_sms (lookupA m.payload "log") ∈ receiveEmits s m now
    simp [receiveEmits, kindEmits, h]
  · show Emit.device_data m.type m.payload now ∈ receiveEmits s m now ↔ _
    by_cases hc : s.current_device = some (deriveDeviceId s m)
    · simp [receiveEmits, kindEmits, h, hc]
    · simp [receiveEmits, kindEmits, h, hc]

/-- C6 witness: the gating theorem at a concrete state in which the
sending device `"x"` is the current Selection. -/
theorem C6_sms_emissions_witness :
    Emit.new_sms (lookupA m6.payload "log") ∈ (receive_data s6 m6 0).2 ∧
      (Emit.device_data m6.type m6.payload 0 ∈ (receive_data s6 m6 0).2 ↔
        s6.current_device = some (deriveDeviceId s6 m6)) :=
  C6_sms_emissions s6 m6 0 rfl

/-! ### Claim C7: command submission with no Selection -/

/-- C7: while the Selection is unset, both the HTTP command endpoint
and the live-session command message fail with the
"no device selected" error, and the command dispatch queue is left
unchanged (no record is enqueued). -/
theorem C7_no_selection_rejects (s : ServerState) (cmd : String)
    (params : List (String × String)) (now : Nat)
    (h : s.current_device = none) :
    send_command s cmd params now = (s, CmdResp.noDeviceSelected) ∧
      handle_web_command s cmd params now = (s, WebCmdResp.command_error) ∧
      (send_command s cmd params now).1.command_queue = s.command_queue ∧
      (handle_web_command s cmd params now).1.command_queue =
        s.command_queue := by
  simp [send_command, handle_web_command, h]

/-- C7 witness: the rejection theorem at the boot state with the
`getsms` command of the spec's scenario B. -/
theorem C7_no_selection_rejects_witness :
    send_command initialState "getsms" [] 0 =
        (initialState, CmdResp.noDeviceSelected) ∧
      handle_web_command initialState "getsms" [] 0 =
        (initialState, WebCmdResp.command_error) ∧
      (send_command initialState "getsms" [] 0).1.command_queue =
        initialState.command_queue ∧
      (handle_web_command initialState "getsms" [] 0).1.command_queue =
        initialState.command_queue :=
  C7_no_selection_rejects initialState "getsms" [] 0 rfl

/-! ### Claim C8: the command formatter is pure and permissive -/

/-- C8: `format_command` is a deterministic pure function of the
command name and params (equal inputs give equal outputs), and every
command name outside the closed known set is returned unchanged. -/
theorem C8_formatter :
    (∀ (c1 c2 : String) (p1 p2 : List (String × String)),
        c1 = c2 → p1 = p2 → format_command c1 p1 = format_command c2 p2) ∧
    (∀ (c : String) (p : List (String × String)),
        c ∉ knownCommands → format_command c p = c) := by
  constructor
  · intro c1 c2 p1 p2 hc hp
    rw [hc, hp]
  · intro c p hc
    simp only [knownCommands, List.mem_cons, List.not_mem_nil, or_false,
      not_or] at hc
    obtain ⟨h1, h2, h3, h4, h5, h6, h7, h8, h9, h10, h11, h12, h13, h14, h15,
      h16, h17, h18, h19, h20, h21⟩ := hc
    simp only [format_command, if_neg h1, if_neg h2, if_neg h3, if_neg h4,
      if_neg h5, if_neg h6, if_neg h7, if_neg h8, if_neg h9, if_neg h10,
      if_neg h11, if_neg h12, if_neg h13, if_neg h14, if_neg h15, if_neg h16,
      if_neg h17, if_neg h18, if_neg h19, if_neg h20, if_neg h21]

/-- C8 witness: determinism and pass-through at the unknown command
name `"selfdestruct"`. -/
theorem C8_formatter_witness :
    format_command "selfdestruct" [("x", "y")] = "selfdestruct" ∧
      format_command "selfdestruct" [] = format_command "selfdestruct" [] :=
  ⟨C8_formatter.2 "selfdestruct" [("x", "y")] (by decide),
   C8_formatter.1 "selfdestruct" "selfdestruct" [] [] rfl rfl⟩

/-! ### Claim C9: history queries -/

/-- C9: the history endpoints backed by the shared scan loop return at
most 50 entries; they return the empty sequence when no device is
selected or the selected id has no stored log; and for a known
selected device the result is exactly the declarative
`queryLastSpec`: scan the log newest-first, keep only entries of the
requested kind, and take at most the limit. -/
theorem C9_history_queries (s : ServerState) :
    (get_sms_logs s).length ≤ 50 ∧
      (get_notifications s).length ≤ 50 ∧
      (s.current_device = none →
        get_sms_logs s = [] ∧ get_notifications s = []) ∧
      (∀ d, s.current_device = some d →
        lookupA s.device_data_queues d = none →
        get_sms_logs s = [] ∧ get_notifications s = []) ∧
      (∀ d q, s.current_device = some d → d ≠ "" →
        lookupA s.device_data_queues d = some q →
        get_sms_logs s = queryLastSpec q "SMS_LOG" "log" 50 ∧
        get_notifications s =
          queryLastSpec q "NOTIFICATION_DATA" "notification" 50) := by
  refine ⟨?_, ?_, ?_, ?_, ?_⟩
  · unfold get_sms_logs
    cases s.current_device with
    | none => simp
    | some d =>
        by_cases hd : d = ""
        · simp [hd]
        · cases hq : lookupA s.device_data_queues d with
          | none => simp [hd, hq]
          | some q => simpa [hd, hq] using scanLogs_length_le "SMS_LOG" "log" 50 q.reverse (by omega)
  · unfold get_notifications
    cases s.current_device with
    | none => simp
    | some d =>
        by_cases hd : d = ""
        · simp [hd]
        · cases hq : lookupA s.device_data_queues d with
          | none => simp [hd, hq]
          | some q => simpa [hd, hq] using scanLogs_length_le "NOTIFICATION_DATA" "notification" 50 q.reverse (by omega)
  · intro h
    simp [get_sms_logs, get_notifications, h]
  · intro d h hq
    by_cases hd : d = ""
    · simp [get_sms_logs, get_notifications, h, hd]
    · simp [get_sms_logs, get_notifications, h, hd, hq]
  · intro d q h hd hq
    constructor
    · rw [get_sms_logs, h]
      simp only [if_neg hd, hq]
      rw [scanLogs_eq _ _ _ _ _ (by simp)]
      simp [queryLastSpec]
    · rw [get_notifications, h]
      simp only [if_neg hd, hq]
      rw [scanLogs_eq _ _ _ _ _ (by simp)]
      simp [queryLastSpec]

/-- C9 witness: the declarative characterization and the length bound
at the concrete state `s9` (two SMS entries among three). -/
theorem C9_history_queries_witness :
    get_sms_logs s9 = queryLastSpec [e1, e2, e3] "SMS_LOG" "log" 50 ∧
      (get_sms_logs s9).length ≤ 50 :=
  ⟨((C9_history_queries s9).2.2.2.2 "x" [e1, e2, e3] rfl (by decide) rfl).1,
   (C9_history_queries s9).1⟩

/-! ### Claim C10: identifier derivation without an address -/

/-- C10: an ingestion whose `client_info` lacks an `address` key is
assigned the device id `"device_" ++ (registry size at call time)`;
two such unaddressed ingestions against the same registry size derive
the same id, and (when the first event is not `DEVICE_INFO`, so the
registry size is unchanged) both events land in the one shared
per-device event log under that id. -/
theorem C10_unaddressed_id (s : ServerState) (m1 m2 : DataMsg) (t1 t2 : Nat)
    (h1 : lookupA m1.client_info "address" = none)
    (h2 : lookupA m2.client_info "address" = none)
    (h3 : ¬ m1.type = some "DEVICE_INFO") :
    deriveDeviceId s m1 = "device_" ++ toString s.connected_devices.length ∧
      deriveDeviceId s m1 = deriveDeviceId s m2 ∧
      deriveDeviceId (receive_data s m1 t1).1 m2 = deriveDeviceId s m1 ∧
      lookupA (receive_data (receive_data s m1 t1).1 m2 t2).1.device_data_queues
          (deriveDeviceId s m1) =
        some (appendEvent
          (appendEvent
            ((lookupA s.device_data_queues (deriveDeviceId s m1)).getD [])
            { type := m1.type, payload := m1.payload, timestamp := t1 })
          { type := m2.type, payload := m2.payload, timestamp := t2 }) := by
  have hid1 : deriveDeviceId s m1 =
      "device_" ++ toString s.connected_devices.length :=
    deriveDeviceId_of_no_address s m1 h1
  have hid2 : deriveDeviceId s m2 =
      "device_" ++ toString s.connected_devices.length :=
    deriveDeviceId_of_no_address s m2 h2
  have hdev : (receive_data s m1 t1).1.connected_devices =
      s.connected_devices := by
    rw [receive_data_devices, newDevices_of_ne s m1 t1 h3]
  have hid3 : deriveDeviceId (receive_data s m1 t1).1 m2 =
      deriveDeviceId s m1 := by
    rw [deriveDeviceId_of_no_address _ m2 h2, hdev, hid1]
  refine ⟨hid1, hid1.trans hid2.symm, hid3, ?_⟩
  rw [receive_data_queues, newQueues, hid3, receive_data_queues, newQueues]
  simp [lookupA_insertA_self]

/-- C10 witness: two concrete address-less messages ingested into the
boot state share the id `"device_0"` and one event log. -/
theorem C10_unaddressed_id_witness :
    deriveDeviceId initialState mA =
        "device_" ++ toString initialState.connected_devices.length ∧
      deriveDeviceId initialState mA = deriveDeviceId initialState mB ∧
      deriveDeviceId (receive_data initialState mA 0).1 mB =
        deriveDeviceId initialState mA ∧
      lookupA (receive_data (receive_data initialState mA 0).1
            mB 1).1.device_data_queues (deriveDeviceId initialState mA) =
        some (appendEvent
          (appendEvent
            ((lookupA initialState.device_data_queues
                (deriveDeviceId initialState mA)).getD [])
            { type := mA.type, payload := mA.payload, timestamp := 0 })
          { type := mB.type, payload := mB.payload, timestamp := 1 }) :=
  C10_unaddressed_id initialState mA mB 0 1 rfl rfl (by decide)

end Server2
